import Mathlib

/-!
Shallow embedding of the SKAT mTLS proxy (src/index.js): startup credential
loading, the per-request gate of the HTTP server handler, outbound request
construction, upstream response relay, and upstream error classification.
-/

namespace SkatProxy

/-- Fixed upstream hostname (SKAT_HOST in src/index.js). -/
def SKAT_HOST : String := "ei-indberetning.skat.dk"

/-- Fixed upstream port (SKAT_PORT in src/index.js). -/
def SKAT_PORT : Nat := 444

/-- Hard-coded default outbound path (line 126 of src/index.js). -/
def DEFAULT_SKAT_PATH : String := "/B2B/EIndkomst/EIndkomstServiceFunctionBinding"

/-- JavaScript truthiness of an optional environment string: an unset
variable and the empty string are both falsy. -/
def envTruthy : Option String → Bool
  | none => false
  | some s => s ≠ ""

/-- JavaScript logical-or defaulting of an optional string, as in
`v || d`: unset and empty both give the default. -/
def jsOr (v : Option String) (d : String) : String :=
  match v with
  | some s => if s = "" then d else s
  | none => d

/-! ### Startup credential loading (lines 21 to 40 of src/index.js) -/

/-- State produced by the startup loader: the decoded certificate buffer
(pfxBuffer) and the recorded load error (certError), both nullable. -/
structure LoaderState where
  pfxBuffer : Option (List Nat)
  certError : Option String
deriving DecidableEq, Repr

/-- Lines 24 to 35: decode the base64 bundle when the variable is truthy;
record an error and leave the buffer unset otherwise or on decode failure.
The base64 decoder itself is runtime-provided, so it is a parameter. -/
def loadCertBundle (decode : String → Except String (List Nat)) :
    Option String → LoaderState
  | some s =>
    if s = "" then ⟨none, some "OCES3_CERTIFICATE_BASE64 not set"⟩
    else
      match decode s with
      | .ok buf => ⟨some buf, none⟩
      | .error m => ⟨none, some ("Failed to decode certificate: " ++ m)⟩
  | none => ⟨none, some "OCES3_CERTIFICATE_BASE64 not set"⟩

/-- Lines 37 to 40: when the passphrase is falsy, set
certError to certError or-else the passphrase message. -/
def applyPasswordCheck (certPassword : Option String) (st : LoaderState) :
    LoaderState :=
  if envTruthy certPassword then st
  else { st with
         certError := some (jsOr st.certError "OCES3_CERTIFICATE_PASSWORD not set") }

/-- Whole startup loader: bundle decode followed by the passphrase check. -/
def loadCredential (decode : String → Except String (List Nat))
    (certBase64 certPassword : Option String) : LoaderState :=
  applyPasswordCheck certPassword (loadCertBundle decode certBase64)

/-! ### Query-string parsing (new URL and searchParams, line 125 to 126) -/

/-- Numeric value of one hexadecimal digit, or none. -/
def hexVal (c : Char) : Option Nat :=
  if '0' ≤ c ∧ c ≤ '9' then some (c.toNat - '0'.toNat)
  else if 'a' ≤ c ∧ c ≤ 'f' then some (c.toNat - 'a'.toNat + 10)
  else if 'A' ≤ c ∧ c ≤ 'F' then some (c.toNat - 'A'.toNat + 10)
  else none

/-- Form decoding of query text: plus becomes space, a percent escape
with two hex digits becomes the escaped character, anything else is kept. -/
def formDecodeChars : List Char → List Char
  | [] => []
  | '+' :: rest => ' ' :: formDecodeChars rest
  | '%' :: c1 :: c2 :: rest =>
    match hexVal c1, hexVal c2 with
    | some h, some l => Char.ofNat (16 * h + l) :: formDecodeChars rest
    | _, _ => '%' :: formDecodeChars (c1 :: c2 :: rest)
  | c :: rest => c :: formDecodeChars rest

/-- Split a character list at every occurrence of the separator. -/
def splitOnChar (sep : Char) : List Char → List (List Char)
  | [] => [[]]
  | c :: rest =>
    if c = sep then [] :: splitOnChar sep rest
    else
      match splitOnChar sep rest with
      | [] => [[c]]
      | g :: gs => (c :: g) :: gs

/-- Query of a request url: the characters after the first question mark,
fragment excluded; empty when there is no question mark. -/
def queryChars (url : String) : List Char :=
  ((url.data.takeWhile (fun c => c ≠ '#')).dropWhile (fun c => c ≠ '?')).drop 1

/-- Split one query component at its first equals sign; the value is
empty when there is no equals sign. -/
def splitPairChars (p : List Char) : List Char × List Char :=
  (p.takeWhile (fun c => c ≠ '='), (p.dropWhile (fun c => c ≠ '=')).drop 1)

/-- Key-value pairs of the query of a url, form-decoded, with empty
pieces skipped. -/
def parseQueryPairs (url : String) : List (String × String) :=
  (splitOnChar '&' (queryChars url)).filterMap fun p =>
    if p = [] then none
    else
      some (String.mk (formDecodeChars (splitPairChars p).1),
            String.mk (formDecodeChars (splitPairChars p).2))

/-- searchParams.get: first value bound to the key, or none. -/
def getSearchParam (url key : String) : Option String :=
  ((parseQueryPairs url).find? (fun kv => kv.1 == key)).map (fun kv => kv.2)

/-- Prefix test on strings by comparison of their character lists. -/
def startsWithStr (s p : String) : Bool :=
  p.data.isPrefixOf s.data

/-- Membership test for one character of a string. -/
def containsChar (s : String) (c : Char) : Bool :=
  s.data.contains c

/-- Line 126: outbound path is the path query parameter, with JavaScript
logical-or defaulting to the hard-coded path. -/
def skatPath (url : String) : String :=
  jsOr (getSearchParam url "path") DEFAULT_SKAT_PATH

/-! ### Server state and inbound requests -/

/-- Process-level state seen by the request handler: the loader result
plus the passphrase and the optional API key from the environment. -/
structure ServerConfig where
  pfxBuffer : Option (List Nat)
  certPassword : Option String
  apiKey : Option String
  certError : Option String
deriving DecidableEq, Repr

/-- One inbound HTTP request: method, raw url, the headers the handler
reads (absent headers are none) and the fully buffered body. -/
structure InboundRequest where
  method : String
  url : String
  xApiKey : Option String
  contentType : Option String
  soapAction : Option String
  body : String
deriving DecidableEq, Repr

/-! ### Responses -/

/-- JSON-like value appearing in sendJson payloads. -/
inductive JVal where
  | str (v : String)
  | bool (v : Bool)
  | num (v : Nat)
deriving DecidableEq, Repr

/-- JSON object payload: ordered field list. -/
abbrev JObj := List (String × JVal)

/-- Body of a response written to the caller. -/
inductive ResponseBody where
  | empty
  | json (o : JObj)
  | raw (bytes : List Nat)
deriving DecidableEq, Repr

/-- Response written to the caller: status, content type header if any,
a flag recording that the CORS headers were spread in, and the body. -/
structure HttpResponse where
  status : Nat
  contentType : Option String
  cors : Bool
  body : ResponseBody
deriving DecidableEq, Repr

/-- sendJson helper (lines 51 to 54): CORS headers plus application/json. -/
def sendJson (status : Nat) (o : JObj) : HttpResponse :=
  ⟨status, some "application/json", true, .json o⟩

/-- Preflight response (lines 58 to 61): status with CORS headers only. -/
def corsOnly (status : Nat) : HttpResponse :=
  ⟨status, none, true, .empty⟩

/-- Lookup of a field of a JSON payload. -/
def jGet (o : JObj) (k : String) : Option JVal :=
  (o.find? (fun kv => kv.1 == k)).map (fun kv => kv.2)

/-! ### Outbound request construction (lines 122 to 149) -/

/-- Options handed to https.request (lines 135 to 149). -/
structure OutboundOptions where
  hostname : String
  port : Nat
  path : String
  method : String
  pfx : List Nat
  passphrase : String
  contentType : String
  contentLength : Nat
  soapAction : String
  rejectUnauthorized : Bool
  minVersion : String
deriving DecidableEq, Repr

/-- Outbound options built for a gated request, from lines 125 to 149. -/
def buildOptions (cfg : ServerConfig) (pfx : List Nat) (req : InboundRequest) :
    OutboundOptions :=
  { hostname := SKAT_HOST
    port := SKAT_PORT
    path := skatPath req.url
    method := "POST"
    pfx := pfx
    passphrase := cfg.certPassword.getD ""
    contentType := jsOr req.contentType "text/xml; charset=utf-8"
    contentLength := req.body.utf8ByteSize
    soapAction := jsOr req.soapAction ""
    rejectUnauthorized := true
    minVersion := "TLSv1.2" }

/-- Result of the gate phase of the handler: either a locally produced
response, or an outbound connection attempt with options and payload. -/
inductive Outcome where
  | respond (r : HttpResponse)
  | forward (opts : OutboundOptions) (payload : String)
deriving DecidableEq, Repr

/-- Outbound connection attempt of an outcome, if any. -/
def outboundAttempt : Outcome → Option (OutboundOptions × String)
  | .respond _ => none
  | .forward o b => some (o, b)

/-- Health payload (lines 65 to 72); the error field is dropped by
JSON.stringify when certError is null. -/
def healthBody (cfg : ServerConfig) (now : String) : JObj :=
  [("status", .str (if cfg.certError.isSome then "degraded" else "ok")),
   ("timestamp", .str now),
   ("hasCertificate", .bool cfg.pfxBuffer.isSome),
   ("hasPassword", .bool (envTruthy cfg.certPassword)),
   ("certSize", .num (match cfg.pfxBuffer with | some b => b.length | none => 0))]
  ++ (match cfg.certError with | some e => [("error", JVal.str e)] | none => [])

/-- Debug payload (lines 77 to 88). -/
def debugBody (cfg : ServerConfig) (now nodeVersion : String) : JObj :=
  [("status", .str "ok"),
   ("timestamp", .str now),
   ("hasCertificate", .bool cfg.pfxBuffer.isSome),
   ("hasPassword", .bool (envTruthy cfg.certPassword)),
   ("hasApiKey", .bool (envTruthy cfg.apiKey)),
   ("certSize", .num (match cfg.pfxBuffer with | some b => b.length | none => 0)),
   ("skatHost", .str SKAT_HOST),
   ("skatPort", .num SKAT_PORT),
   ("nodeVersion", .str nodeVersion)]
  ++ (match cfg.certError with | some e => [("error", JVal.str e)] | none => [])

/-- The request gate of the server handler (lines 56 to 149), evaluated
in source order: preflight, health, debug, API key, routing, certificate
readiness, then the forward with the built outbound options. -/
def handleRequest (cfg : ServerConfig) (now nodeVersion : String)
    (req : InboundRequest) : Outcome :=
  if req.method = "OPTIONS" then
    .respond (corsOnly 200)
  else if req.url = "/health" ∧ req.method = "GET" then
    .respond (sendJson 200 (healthBody cfg now))
  else if req.url = "/debug" ∧ req.method = "GET" then
    .respond (sendJson 200 (debugBody cfg now nodeVersion))
  else if envTruthy cfg.apiKey ∧ req.xApiKey ≠ cfg.apiKey then
    .respond (sendJson 401 [("error", .str "Unauthorized - Invalid API key")])
  else if req.method ≠ "POST" ∨ ¬ startsWithStr req.url "/proxy" then
    .respond (sendJson 405
      [("error", .str "Method not allowed"),
       ("method", .str req.method), ("url", .str req.url)])
  else
    match cfg.pfxBuffer, envTruthy cfg.certPassword with
    | some pfx, true => .forward (buildOptions cfg pfx req) req.body
    | _, _ =>
      .respond (sendJson 500
        [("error", .str "Certificate not configured"),
         ("details", .str (jsOr cfg.certError "Missing certificate or password"))])

/-! ### Upstream response relay (lines 151 to 166)

The handler accumulates the body with responseBody += chunk: every data
chunk, a byte buffer, is converted to a string by UTF-8 decoding with
replacement of invalid sequences, the strings are concatenated, and the
final res.end encodes the accumulated string back to UTF-8 bytes. The
decoder below follows the WHATWG replacement policy used by the Node
buffer-to-string conversion: one replacement character per maximal
invalid subpart, and one for a truncated sequence at end of input. -/

/-- Continuation byte test for UTF-8 decoding. -/
def isCont (b : Nat) : Bool :=
  128 ≤ b ∧ b ≤ 191

/-- UTF-8 decoding with replacement, fuelled by the input length; every
step consumes at least one byte, so the fuel never runs out when the
function is entered through utf8Decode. -/
def utf8DecodeAux : Nat → List Nat → List Char
  | 0, _ => []
  | _ + 1, [] => []
  | fuel + 1, b :: rest =>
    if b ≤ 127 then Char.ofNat b :: utf8DecodeAux fuel rest
    else if 194 ≤ b ∧ b ≤ 223 then
      match rest with
      | [] => [Char.ofNat 65533]
      | b1 :: rest1 =>
        if isCont b1 then
          Char.ofNat ((b - 192) * 64 + (b1 - 128)) :: utf8DecodeAux fuel rest1
        else Char.ofNat 65533 :: utf8DecodeAux fuel (b1 :: rest1)
    else if 224 ≤ b ∧ b ≤ 239 then
      match rest with
      | [] => [Char.ofNat 65533]
      | b1 :: rest1 =>
        if (if b = 224 then 160 else 128) ≤ b1 ∧ b1 ≤ (if b = 237 then 159 else 191) then
          match rest1 with
          | [] => [Char.ofNat 65533]
          | b2 :: rest2 =>
            if isCont b2 then
              Char.ofNat ((b - 224) * 4096 + (b1 - 128) * 64 + (b2 - 128)) ::
                utf8DecodeAux fuel rest2
            else Char.ofNat 65533 :: utf8DecodeAux fuel (b2 :: rest2)
        else Char.ofNat 65533 :: utf8DecodeAux fuel (b1 :: rest1)
    else if 240 ≤ b ∧ b ≤ 244 then
      match rest with
      | [] => [Char.ofNat 65533]
      | b1 :: rest1 =>
        if (if b = 240 then 144 else 128) ≤ b1 ∧ b1 ≤ (if b = 244 then 143 else 191) then
          match rest1 with
          | [] => [Char.ofNat 65533]
          | b2 :: rest2 =>
            if isCont b2 then
              match rest2 with
              | [] => [Char.ofNat 65533]
              | b3 :: rest3 =>
                if isCont b3 then
                  Char.ofNat ((b - 240) * 262144 + (b1 - 128) * 4096 +
                      (b2 - 128) * 64 + (b3 - 128)) :: utf8DecodeAux fuel rest3
                else Char.ofNat 65533 :: utf8DecodeAux fuel (b3 :: rest3)
            else Char.ofNat 65533 :: utf8DecodeAux fuel (b2 :: rest2)
        else Char.ofNat 65533 :: utf8DecodeAux fuel (b1 :: rest1)
    else Char.ofNat 65533 :: utf8DecodeAux fuel rest

/-- UTF-8 decoding of one buffer, as done by the buffer-to-string
conversion inside responseBody += chunk. -/
def utf8Decode (bs : List Nat) : List Char :=
  utf8DecodeAux bs.length bs

/-- Standard UTF-8 encoding of one character; decoded characters are
always unicode scalar values, so no surrogate handling is needed. -/
def utf8EncodeChar (c : Char) : List Nat :=
  let n := c.toNat
  if n ≤ 127 then [n]
  else if n ≤ 2047 then [192 + n / 64, 128 + n % 64]
  else if n ≤ 65535 then [224 + n / 4096, 128 + n / 64 % 64, 128 + n % 64]
  else [240 + n / 262144, 128 + n / 4096 % 64, 128 + n / 64 % 64, 128 + n % 64]

/-- UTF-8 encoding of a string, as done by res.end on the accumulated
response string. -/
def utf8Encode (s : List Char) : List Nat :=
  (s.map utf8EncodeChar).flatten

/-- Upstream response as observed by the proxyRes handler: status code,
content type header if present, and the body data chunks in order. -/
structure UpstreamResponse where
  statusCode : Nat
  contentType : Option String
  chunks : List (List Nat)
deriving DecidableEq, Repr

/-- Lines 154 to 165: decode every data chunk to a string, concatenate,
then write the upstream status with CORS headers, the upstream content
type with JavaScript logical-or defaulting to text/xml, and the
re-encoded accumulated body. -/
def relayResponse (u : UpstreamResponse) : HttpResponse :=
  ⟨u.statusCode, some (jsOr u.contentType "text/xml"), true,
   .raw (utf8Encode ((u.chunks.map utf8Decode).flatten))⟩

/-! ### Upstream error classification (lines 169 to 190) -/

/-- Error object delivered to the https.request error handler: message
and the optional code property. -/
structure NetError where
  message : String
  code : Option String
deriving DecidableEq, Repr

/-- Lines 174 to 183: map recognized error codes to specific messages,
keeping the raw message otherwise. -/
def classifyNetError (e : NetError) : String :=
  if e.code = some "ERR_OSSL_PKCS12_MAC_VERIFY_FAILURE" then
    "Certificate password is incorrect"
  else if e.code = some "ERR_OSSL_PKCS12_PKCS12_PFX_PDU_PARSING_ERROR" then
    "Certificate file is corrupted or invalid"
  else if e.code = some "ECONNREFUSED" then
    "Connection refused by SKAT server"
  else if e.code = some "ETIMEDOUT" then
    "Connection to SKAT timed out"
  else e.message

/-- Lines 185 to 189: the 502 payload; the code field is dropped by
JSON.stringify when the code property is undefined. -/
def relayNetError (e : NetError) : HttpResponse :=
  sendJson 502
    ([("error", JVal.str "Failed to connect to SKAT"),
      ("details", JVal.str (classifyNetError e))]
     ++ (match e.code with | some c => [("code", JVal.str c)] | none => []))

/-- Concrete decoder that always fails, used to exercise the failure
branch of the loader on closed inputs. -/
def failingDecode : String → Except String (List Nat) :=
  fun _ => .error "invalid base64"

/-! ### General lemmas -/

/-- Appending to a nonempty string never yields the empty string. -/
theorem str_append_ne_empty (a b : String) (ha : a ≠ "") : a ++ b ≠ "" := by
  intro h
  have hl := congrArg String.length h
  rw [String.length_append] at hl
  have h0 : ("" : String).length = 0 := rfl
  rw [h0] at hl
  have ha' : a.length ≠ 0 := by
    intro h0'
    apply ha
    cases a with
    | mk d =>
      cases d with
      | nil => rfl
      | cons c cs => exact absurd h0' (by simp [String.length])
  omega

/-- The passphrase check never touches the certificate buffer. -/
theorem applyPasswordCheck_pfx (pw : Option String) (st : LoaderState) :
    (applyPasswordCheck pw st).pfxBuffer = st.pfxBuffer := by
  unfold applyPasswordCheck; split <;> rfl

/-- The passphrase check keeps a nonempty recorded load error. -/
theorem applyPasswordCheck_keeps_error (pw : Option String) (st : LoaderState)
    (e : String) (h : st.certError = some e) (he : e ≠ "") :
    (applyPasswordCheck pw st).certError = some e := by
  unfold applyPasswordCheck
  split
  · exact h
  · simp [h, jsOr, he]

/-- Every load error recorded by the bundle decode step is nonempty. -/
theorem loadCertBundle_error_ne_empty
    (decode : String → Except String (List Nat)) (cb : Option String)
    (e : String) (h : (loadCertBundle decode cb).certError = some e) :
    e ≠ "" := by
  cases cb with
  | none =>
    simp [loadCertBundle] at h
    subst h
    decide
  | some t =>
    by_cases ht : t = ""
    · subst ht
      simp [loadCertBundle] at h
      subst h
      decide
    · cases hdt : decode t with
      | ok buf => simp [loadCertBundle, ht, hdt] at h
      | error m =>
        simp [loadCertBundle, ht, hdt] at h
        subst h
        exact str_append_ne_empty _ _ (by decide)

/-- UTF-8 encoding distributes over string concatenation. -/
theorem utf8Encode_append (a b : List Char) :
    utf8Encode (a ++ b) = utf8Encode a ++ utf8Encode b := by
  simp [utf8Encode]

/-- When every chunk re-encodes to itself after decoding, the
decode-concatenate-encode pipeline of the relay gives back exactly the
concatenation of the original chunks. -/
theorem utf8Encode_flatten_decode (chunks : List (List Nat))
    (h : ∀ c ∈ chunks, utf8Encode (utf8Decode c) = c) :
    utf8Encode ((chunks.map utf8Decode).flatten) = chunks.flatten := by
  induction chunks with
  | nil => rfl
  | cons c cs ih =>
    simp only [List.map_cons, List.flatten_cons]
    rw [utf8Encode_append, h c (List.mem_cons_self c cs),
      ih (fun d hd => h d (List.mem_cons_of_mem c hd))]

/-! ### Claim theorems -/

/-- C1 counterexample: the relay is not an exact byte relay. The single
upstream body byte 255 is not valid UTF-8, so the string accumulation
turns it into the replacement character and res.end re-encodes that to
three bytes; and an upstream content type given as the empty string is
falsy under logical-or, so the caller receives text/xml instead of it. -/
theorem relay_transforms_invalid_utf8_counterexample :
    (relayResponse ⟨200, some "text/xml", [[255]]⟩).body = .raw [239, 191, 189] ∧
    (relayResponse ⟨200, some "text/xml", [[255]]⟩).body ≠ .raw [255] ∧
    (relayResponse ⟨200, some "", [[60]]⟩).contentType = some "text/xml" ∧
    (some "text/xml" : Option String) ≠ some "" := by decide

/-- C1 amended: for every upstream response with status 200, body
chunks that are valid UTF-8 (each chunk re-encodes to itself after
decoding) and a present non-empty content type T, the relay answers
status 200, a body byte-identical to the concatenation of the chunks
and content type T, with only the CORS headers added; when the upstream
content type is absent it defaults to text/xml. -/
theorem relay_preserves_valid_utf8_response (T : String)
    (chunks : List (List Nat)) (hT : T ≠ "")
    (hvalid : ∀ c ∈ chunks, utf8Encode (utf8Decode c) = c) :
    relayResponse ⟨200, some T, chunks⟩ = ⟨200, some T, true, .raw chunks.flatten⟩ ∧
    relayResponse ⟨200, none, chunks⟩ =
      ⟨200, some "text/xml", true, .raw chunks.flatten⟩ := by
  have hb := utf8Encode_flatten_decode chunks hvalid
  constructor <;> simp [relayResponse, jsOr, hT, hb]

/-- Witness for the amended C1 at a concrete ASCII upstream body. -/
theorem relay_preserves_valid_utf8_response_witness :
    ("text/xml" : String) ≠ "" ∧
    (∀ c ∈ [[60, 111, 107, 47, 62]], utf8Encode (utf8Decode c) = c) ∧
    (relayResponse ⟨200, some "text/xml", [[60, 111, 107, 47, 62]]⟩ =
      ⟨200, some "text/xml", true, .raw ([[60, 111, 107, 47, 62]].flatten)⟩ ∧
    relayResponse ⟨200, none, [[60, 111, 107, 47, 62]]⟩ =
      ⟨200, some "text/xml", true, .raw ([[60, 111, 107, 47, 62]].flatten)⟩) :=
  ⟨by decide, by decide,
   relay_preserves_valid_utf8_response "text/xml" _ (by decide) (by decide)⟩

/-- C2: for every inbound request other than OPTIONS and the diagnostics
routes, when the configured API key is truthy and the supplied header is
not equal to it, the handler answers 401 and makes no outbound
connection attempt. -/
theorem invalid_api_key_yields_401 (cfg : ServerConfig) (now nodeVersion : String)
    (req : InboundRequest)
    (hm : req.method ≠ "OPTIONS")
    (hh : req.url ≠ "/health") (hd : req.url ≠ "/debug")
    (hk : envTruthy cfg.apiKey = true)
    (ha : req.xApiKey ≠ cfg.apiKey) :
    handleRequest cfg now nodeVersion req =
      .respond (sendJson 401 [("error", .str "Unauthorized - Invalid API key")]) ∧
    outboundAttempt (handleRequest cfg now nodeVersion req) = none := by
  have h : handleRequest cfg now nodeVersion req =
      .respond (sendJson 401 [("error", .str "Unauthorized - Invalid API key")]) := by
    simp [handleRequest, hm, hh, hd, hk, ha]
  exact ⟨h, by rw [h]; rfl⟩

/-- Witness for C2: wrong key on a POST to the proxy route is refused. -/
theorem invalid_api_key_yields_401_witness :
    ("POST" : String) ≠ "OPTIONS" ∧ ("/proxy" : String) ≠ "/health" ∧
    ("/proxy" : String) ≠ "/debug" ∧ envTruthy (some "abc") = true ∧
    (some "wrong" : Option String) ≠ some "abc" ∧
    (handleRequest ⟨some [1], some "pw", some "abc", none⟩ "t" "v"
        ⟨"POST", "/proxy", some "wrong", none, none, "x"⟩ =
      .respond (sendJson 401 [("error", .str "Unauthorized - Invalid API key")]) ∧
     outboundAttempt (handleRequest ⟨some [1], some "pw", some "abc", none⟩ "t" "v"
        ⟨"POST", "/proxy", some "wrong", none, none, "x"⟩) = none) :=
  ⟨by decide, by decide, by decide, by decide, by decide,
   invalid_api_key_yields_401 _ _ _ _
     (by decide) (by decide) (by decide) (by decide) (by decide)⟩

/-- C3: for every POST to the proxy route that passes the API key check
while the certificate buffer or the passphrase is unset, the handler
answers 500 with error and details fields and makes no outbound
connection attempt. -/
theorem missing_credential_yields_500 (cfg : ServerConfig) (now nodeVersion : String)
    (req : InboundRequest)
    (hm : req.method = "POST")
    (hu : startsWithStr req.url "/proxy" = true)
    (hk : envTruthy cfg.apiKey = false ∨ req.xApiKey = cfg.apiKey)
    (hc : cfg.pfxBuffer = none ∨ envTruthy cfg.certPassword = false) :
    handleRequest cfg now nodeVersion req =
      .respond (sendJson 500
        [("error", .str "Certificate not configured"),
         ("details", .str (jsOr cfg.certError "Missing certificate or password"))]) ∧
    outboundAttempt (handleRequest cfg now nodeVersion req) = none := by
  have h : handleRequest cfg now nodeVersion req =
      .respond (sendJson 500
        [("error", .str "Certificate not configured"),
         ("details", .str (jsOr cfg.certError "Missing certificate or password"))]) := by
    have hkf : ¬ (envTruthy cfg.apiKey ∧ req.xApiKey ≠ cfg.apiKey) := by
      rcases hk with hk | hk
      · simp [hk]
      · simp [hk]
    rcases hc with hc | hc
    · simp [handleRequest, hm, hu, hkf, hc]
    · cases hp : cfg.pfxBuffer with
      | none => simp [handleRequest, hm, hu, hkf, hp]
      | some pfx => simp [handleRequest, hm, hu, hkf, hp, hc]
  exact ⟨h, by rw [h]; rfl⟩

/-- Witness for C3: POST to the proxy route with no bundle configured. -/
theorem missing_credential_yields_500_witness :
    ("POST" : String) = "POST" ∧
    startsWithStr "/proxy" "/proxy" = true ∧
    envTruthy (none : Option String) = false ∧
    (handleRequest ⟨none, some "pw", none, some "OCES3_CERTIFICATE_BASE64 not set"⟩
        "t" "v" ⟨"POST", "/proxy", none, none, none, ""⟩ =
      .respond (sendJson 500
        [("error", .str "Certificate not configured"),
         ("details", .str (jsOr (some "OCES3_CERTIFICATE_BASE64 not set")
           "Missing certificate or password"))]) ∧
     outboundAttempt
       (handleRequest ⟨none, some "pw", none, some "OCES3_CERTIFICATE_BASE64 not set"⟩
         "t" "v" ⟨"POST", "/proxy", none, none, none, ""⟩) = none) :=
  ⟨rfl, by decide, rfl,
   missing_credential_yields_500 _ _ _ _ rfl (by decide) (Or.inl rfl) (Or.inl rfl)⟩

/-- C4: every outbound failure with a code is answered 502 with details
set to the classified message and the code field set to the raw
identifier; the four recognized codes map to their specific messages and
an unrecognized code keeps the raw message. -/
theorem upstream_error_classified_502 (msg c : String) :
    relayNetError ⟨msg, some c⟩ =
      sendJson 502
        [("error", .str "Failed to connect to SKAT"),
         ("details", .str (classifyNetError ⟨msg, some c⟩)),
         ("code", .str c)] ∧
    classifyNetError ⟨msg, some "ECONNREFUSED"⟩ = "Connection refused by SKAT server" ∧
    classifyNetError ⟨msg, some "ERR_OSSL_PKCS12_MAC_VERIFY_FAILURE"⟩ =
      "Certificate password is incorrect" ∧
    classifyNetError ⟨msg, some "ERR_OSSL_PKCS12_PKCS12_PFX_PDU_PARSING_ERROR"⟩ =
      "Certificate file is corrupted or invalid" ∧
    classifyNetError ⟨msg, some "ETIMEDOUT"⟩ = "Connection to SKAT timed out" ∧
    classifyNetError ⟨msg, some "EHOSTUNREACH"⟩ = msg := by
  refine ⟨by simp [relayNetError], ?_, ?_, ?_, ?_, ?_⟩ <;> simp [classifyNetError]

/-- C5: when decoding a configured bundle fails, the loader records the
decode failure message and leaves the buffer unset, and in general the
buffer is present exactly when the configured value decoded
successfully, so there is no partially loaded state. -/
theorem decode_failure_leaves_credential_unset
    (decode : String → Except String (List Nat)) (pw cb : Option String)
    (s m : String) (b : List Nat)
    (hs : s ≠ "") (hd : decode s = .error m) :
    (loadCredential decode (some s) pw).pfxBuffer = none ∧
    (loadCredential decode (some s) pw).certError =
      some ("Failed to decode certificate: " ++ m) ∧
    ((loadCredential decode cb pw).pfxBuffer = some b ↔
      ∃ t, cb = some t ∧ t ≠ "" ∧ decode t = .ok b) := by
  have hbundle : loadCertBundle decode (some s) =
      ⟨none, some ("Failed to decode certificate: " ++ m)⟩ := by
    simp only [loadCertBundle]
    rw [if_neg hs, hd]
  refine ⟨?_, ?_, ?_⟩
  · unfold loadCredential
    rw [applyPasswordCheck_pfx, hbundle]
  · unfold loadCredential
    exact applyPasswordCheck_keeps_error _ _ _ (by rw [hbundle])
      (str_append_ne_empty _ _ (by decide))
  · unfold loadCredential
    rw [applyPasswordCheck_pfx]
    cases cb with
    | none =>
      simp [loadCertBundle]
    | some t =>
      by_cases ht : t = ""
      · subst ht
        simp [loadCertBundle]
      · cases hdt : decode t with
        | ok buf =>
          simp [loadCertBundle, ht, hdt]
        | error msg =>
          simp [loadCertBundle, ht, hdt]

/-- Witness for C5 with a concrete failing decoder. -/
theorem decode_failure_leaves_credential_unset_witness :
    ("AAAA" : String) ≠ "" ∧
    failingDecode "AAAA" = .error "invalid base64" ∧
    ((loadCredential failingDecode (some "AAAA") (some "pw")).pfxBuffer = none ∧
     (loadCredential failingDecode (some "AAAA") (some "pw")).certError =
       some ("Failed to decode certificate: " ++ "invalid base64") ∧
     ((loadCredential failingDecode (some "AAAA") (some "pw")).pfxBuffer = some [] ↔
       ∃ t, (some "AAAA" : Option String) = some t ∧ t ≠ "" ∧
         failingDecode t = .ok [])) :=
  ⟨by decide, rfl,
   decode_failure_leaves_credential_unset failingDecode (some "pw") (some "AAAA")
     "AAAA" "invalid base64" [] (by decide) rfl⟩

/-- C6: every OPTIONS request is answered 200 with an empty body and
CORS headers regardless of url, headers, body or server state, and no
outbound connection attempt is made. -/
theorem options_preflight_short_circuits (cfg : ServerConfig)
    (now nodeVersion url body : String) (key ct sa : Option String) :
    handleRequest cfg now nodeVersion ⟨"OPTIONS", url, key, ct, sa, body⟩ =
      .respond ⟨200, none, true, .empty⟩ ∧
    outboundAttempt
      (handleRequest cfg now nodeVersion ⟨"OPTIONS", url, key, ct, sa, body⟩) = none := by
  constructor <;> simp [handleRequest, corsOnly, outboundAttempt]

/-- C7 counterexample: at the url /proxy?path= a path parameter is given
with value the empty string, yet the outbound path is the hard-coded
default rather than that given value. -/
theorem outbound_path_override_counterexample :
    getSearchParam "/proxy?path=" "path" = some "" ∧
    (buildOptions ⟨some [], some "pw", none, none⟩ []
      ⟨"POST", "/proxy?path=", none, none, none, ""⟩).path = DEFAULT_SKAT_PATH ∧
    DEFAULT_SKAT_PATH ≠ "" := by
  refine ⟨by decide, ?_, by decide⟩
  show skatPath "/proxy?path=" = DEFAULT_SKAT_PATH
  decide

/-- C7 amended: the outbound request path equals the path query
parameter when one is given with a non-empty value, and equals the
hard-coded default when the parameter is absent. -/
theorem outbound_path_override_amended (cfg : ServerConfig) (pfx : List Nat)
    (req : InboundRequest) (p : String) :
    (getSearchParam req.url "path" = some p → p ≠ "" →
      (buildOptions cfg pfx req).path = p) ∧
    (getSearchParam req.url "path" = none →
      (buildOptions cfg pfx req).path = DEFAULT_SKAT_PATH) := by
  constructor
  · intro h hp; simp [buildOptions, skatPath, jsOr, h, hp]
  · intro h; simp [buildOptions, skatPath, jsOr, h]

/-- Witness for the amended C7 at a concrete custom path. -/
theorem outbound_path_override_amended_witness :
    getSearchParam "/proxy?path=/custom/path" "path" = some "/custom/path" ∧
    ("/custom/path" : String) ≠ "" ∧
    (buildOptions ⟨some [], some "pw", none, none⟩ []
      ⟨"POST", "/proxy?path=/custom/path", none, none, none, ""⟩).path =
      "/custom/path" :=
  ⟨by decide, by decide,
   (outbound_path_override_amended _ _ _ _).1 (by decide) (by decide)⟩

/-- C8: with the passphrase falsy, the loader answers with the already
recorded bundle error unchanged when one exists, and records the
passphrase message only when no bundle error exists. -/
theorem passphrase_error_not_overwriting
    (decode : String → Except String (List Nat)) (cb pw : Option String)
    (e : String) (hpw : envTruthy pw = false) :
    ((loadCertBundle decode cb).certError = some e →
      (loadCredential decode cb pw).certError = some e) ∧
    ((loadCertBundle decode cb).certError = none →
      (loadCredential decode cb pw).certError =
        some "OCES3_CERTIFICATE_PASSWORD not set") := by
  constructor
  · intro h
    exact applyPasswordCheck_keeps_error _ _ _ h
      (loadCertBundle_error_ne_empty _ _ _ h)
  · intro h
    unfold loadCredential applyPasswordCheck
    rw [hpw]
    simp [h, jsOr]

/-- Witness for C8: a missing bundle error survives a missing passphrase. -/
theorem passphrase_error_not_overwriting_witness :
    envTruthy none = false ∧
    (loadCertBundle failingDecode none).certError =
      some "OCES3_CERTIFICATE_BASE64 not set" ∧
    (loadCredential failingDecode none none).certError =
      some "OCES3_CERTIFICATE_BASE64 not set" :=
  ⟨rfl, rfl,
   (passphrase_error_not_overwriting failingDecode none none
     "OCES3_CERTIFICATE_BASE64 not set" rfl).1 rfl⟩

/-- C9: a GET request whose url carries a question mark, as a
diagnostics url with a query string does, matches neither diagnostics
route and falls through to the API key and routing checks, ending in
401 or 405. -/
theorem diagnostics_query_falls_through (cfg : ServerConfig)
    (now nodeVersion url body : String) (key ct sa : Option String)
    (hq : containsChar url '?' = true) :
    handleRequest cfg now nodeVersion ⟨"GET", url, key, ct, sa, body⟩ =
      .respond (sendJson 401 [("error", .str "Unauthorized - Invalid API key")]) ∨
    handleRequest cfg now nodeVersion ⟨"GET", url, key, ct, sa, body⟩ =
      .respond (sendJson 405
        [("error", .str "Method not allowed"),
         ("method", .str "GET"), ("url", .str url)]) := by
  have hh : url ≠ "/health" := by
    intro h; rw [h] at hq; exact absurd hq (by decide)
  have hd : url ≠ "/debug" := by
    intro h; rw [h] at hq; exact absurd hq (by decide)
  by_cases hk : envTruthy cfg.apiKey ∧ key ≠ cfg.apiKey
  · left; simp [handleRequest, hh, hd, hk]
  · right; simp [handleRequest, hh, hd, hk]

/-- Witness for C9 at the health url with a query string. -/
theorem diagnostics_query_falls_through_witness :
    containsChar "/health?verbose=1" '?' = true ∧
    (handleRequest ⟨none, none, none, none⟩ "t" "v"
        ⟨"GET", "/health?verbose=1", none, none, none, ""⟩ =
      .respond (sendJson 401 [("error", .str "Unauthorized - Invalid API key")]) ∨
     handleRequest ⟨none, none, none, none⟩ "t" "v"
        ⟨"GET", "/health?verbose=1", none, none, none, ""⟩ =
      .respond (sendJson 405
        [("error", .str "Method not allowed"),
         ("method", .str "GET"), ("url", .str "/health?verbose=1")])) :=
  ⟨by decide,
   diagnostics_query_falls_through _ _ _ _ _ _ _ _ (by decide)⟩

/-- C10: a path parameter with an empty value gives the hard-coded
default outbound path, and the outbound path is never empty. -/
theorem empty_path_param_defaults (cfg : ServerConfig) (pfx : List Nat)
    (req : InboundRequest) :
    (getSearchParam req.url "path" = some "" →
      (buildOptions cfg pfx req).path = DEFAULT_SKAT_PATH) ∧
    (buildOptions cfg pfx req).path ≠ "" := by
  constructor
  · intro h; simp [buildOptions, skatPath, jsOr, h]
  · show skatPath req.url ≠ ""
    unfold skatPath jsOr
    cases h : getSearchParam req.url "path" with
    | none => decide
    | some s =>
      show (if s = "" then DEFAULT_SKAT_PATH else s) ≠ ""
      by_cases hs : s = ""
      · rw [if_pos hs]; decide
      · rw [if_neg hs]; exact hs

/-- Witness for C10 at the url with an empty path parameter. -/
theorem empty_path_param_defaults_witness :
    getSearchParam "/proxy?path=" "path" = some "" ∧
    (buildOptions ⟨some [], some "pw", none, none⟩ []
      ⟨"POST", "/proxy?path=", none, none, none, ""⟩).path = DEFAULT_SKAT_PATH :=
  ⟨by decide, (empty_path_param_defaults _ _ _).1 (by decide)⟩

end SkatProxy
